import Mathlib

/-
Verification of the gallery backend core (collections/items routes) against
its design specification.  The definitions below are a shallow embedding of
`backend/app/api/routes/items.py`, `backend/app/api/routes/collections.py`
and the data model in `backend/app/models.py`.

External collaborators (Python stdlib datetime parsing, PIL image decoding,
uuid generation, the configured storage root) are passed in explicitly as an
environment record, matching how the routes call into them.  Machine-level
details that no route inspects (datetime contents, float monetary values)
are carried as opaque integer stand-ins: the routes only move them around.
-/

namespace Gallery

/-- An HTTP error as raised via `HTTPException(status_code, detail)`. -/
structure HTTPError where
  status : Nat
  detail : String
deriving Repr, DecidableEq

/-- The identity attached to a request (`CurrentUser`): `app/models.py` `User`,
restricted to the fields the routes read. -/
structure User where
  id : Nat
  is_superuser : Bool := false
  is_active : Bool := true
deriving Repr, DecidableEq

/-- Model of `app/models.py` `Collection` table row. `created_date` is an abstract
timestamp. -/
structure Collection where
  id : Nat
  name : String
  description : Option String := none
  is_public : Bool := false
  created_by : Nat
  created_date : Nat := 0
deriving Repr, DecidableEq

/-- Model of `app/models.py` `Item` table row.  Dates are abstract parsed values
(`Int`), the float `monitory_value` is an opaque stand-in (`Int`): the routes
never compute with either, they only store and compare them. -/
structure Item where
  id : Nat
  title : String
  veneration : Option String := none
  description : Option String := none
  commission_date : Option Int := none
  owned_since : Option Int := none
  monitory_value : Option Int := none
  filename : String
  file_path : String
  file_size : Nat
  mime_type : String
  width : Option Nat := none
  height : Option Nat := none
  alt_text : Option String := none
  owner_id : Nat
  collection_id : Nat
  upload_date : Nat := 0
deriving Repr, DecidableEq

/-- Model of `app/models.py` `ItemsPublic` response shape. -/
structure ItemsPublic where
  data : List Item
  count : Nat
deriving Repr, DecidableEq

/-- Model of `app/models.py` `ItemUpdate` patch body.  A `none` field is a field that
was absent from the request (pydantic `exclude_unset` drops it). -/
structure ItemUpdate where
  title : Option String := none
  veneration : Option String := none
  commission_date : Option Int := none
  owned_since : Option Int := none
  monitory_value : Option Int := none
  description : Option String := none
  alt_text : Option String := none
  collection_id : Option Nat := none
deriving Repr, DecidableEq

/-- Model of `app/models.py` `CollectionUpdate` patch body, `none` = absent. -/
structure CollectionUpdate where
  name : Option String := none
  description : Option String := none
  is_public : Option Bool := none
deriving Repr, DecidableEq

/-- Raw bytes of an uploaded file. -/
abbrev Bytes := List Nat

/-- A FastAPI `UploadFile`: client-declared filename and content type plus the
body bytes returned by `await file.read()`. -/
structure UploadFile where
  filename : Option String := none
  content_type : Option String := none
  content : Bytes := []
deriving Repr, DecidableEq

/-- The filesystem, as an association list from path to byte contents. -/
abbrev Fs := List (String × Bytes)

/-- The database: the two tables the routes touch. -/
structure Db where
  collections : List Collection := []
  items : List Item := []
deriving Repr, DecidableEq

/-- Combined mutable state of a request: database plus blob storage. -/
structure Sys where
  db : Db
  fs : Fs := []
deriving Repr, DecidableEq

/-- Observable side effects of a route, in the order the code performs them.
`dbCommit` marks `session.commit()` making record changes durable. -/
inductive Ev where
  | mkdir (dir : String)
  | fsWrite (path : String)
  | fsRemove (path : String)
  | dbCommit
deriving Repr, DecidableEq

/-- Result of running one route handler: the HTTP-level outcome, the state
after the call, and the ordered trace of side effects. -/
structure OpResult (α : Type) where
  res : Except HTTPError α
  sys : Sys
  trace : List Ev

/-- External collaborators used by the upload/update routes:
`settings.IMAGE_STORAGE_PATH`, the `uuid.uuid4()` token drawn for this
request, PIL (`Image.open(...).size`, `none` on decode failure), and
`datetime.fromisoformat` (`none` when the string is malformed and
`ValueError` is raised). -/
structure Env where
  imageStoragePath : String
  uuidName : String
  decodeImage : Bytes → Option (Nat × Nat)
  parseISO : String → Option Int

/-- Merge one optional column: a present patch value overwrites, an absent
one keeps the stored value (sqlmodel_update semantics for nullable fields). -/
def mergeOpt {α : Type} (patch : Option α) (old : Option α) : Option α :=
  match patch with
  | some v => some v
  | none => old

/-- Python truthiness of an `int | None`: `None` and `0` are falsy. -/
def pyTruthyNat : Option Nat → Bool
  | none => false
  | some n => n != 0

/-- Python `x or dflt` for `x : str | None`: `None` and `""` fall through. -/
def pyOrStr (x : Option String) (dflt : String) : String :=
  match x with
  | none => dflt
  | some v => if v = "" then dflt else v

/-- Character-list prefix test (the semantics of `str.startswith`). -/
def charsPrefixOf : List Char → List Char → Bool
  | [], _ => true
  | _ :: _, [] => false
  | a :: as, b :: bs => a == b && charsPrefixOf as bs

/-- Model of `file.content_type and file.content_type.startswith('image/')`:
the guard at items.py:111 and items.py:257 (negated there). -/
def contentTypeIsImage : Option String → Bool
  | none => false
  | some ct => charsPrefixOf "image/".toList ct.toList

/-- Model of `collection.name.replace(' ', '_').lower()` (items.py:119, items.py:270). -/
def dirOfName (name : String) : String :=
  String.mk ((name.toList.map (fun c => if c = ' ' then '_' else c)).map Char.toLower)

/-- Index of the last '.' in a character list, if any. -/
def lastIdxOfDot : List Char → Option Nat
  | [] => none
  | c :: cs =>
    match lastIdxOfDot cs with
    | some i => some (i + 1)
    | none => if c = '.' then some 0 else none

/-- The characters of `os.path.basename(name)`: everything after the last
path separator. -/
def basenameChars (name : String) : List Char :=
  name.toList.foldl (fun acc c => if c = '/' then [] else acc ++ [c]) []

/-- Model of `os.path.splitext(name)[1]`: the extension of the final path component,
empty when the component has no dot or only leading dots. -/
def splitextExt (name : String) : String :=
  let cs := basenameChars name
  match lastIdxOfDot cs with
  | none => ""
  | some i => if (cs.take i).all (fun c => c = '.') then "" else String.mk (cs.drop i)

/-- Model of `os.path.splitext(file.filename or "")[1] or ".jpg"` (items.py:115, 261). -/
def extFor (filename : Option String) : String :=
  let e := splitextExt (filename.getD "")
  if e = "" then ".jpg" else e

/-- Write a file: overwrite the entry at `p` when present, else append. -/
def fsWrite (fs : Fs) (p : String) (b : Bytes) : Fs :=
  if fs.any (fun e => e.1 = p) then fs.map (fun e => if e.1 = p then (p, b) else e)
  else fs ++ [(p, b)]

/-- Model of `os.remove p`. -/
def fsRemove (fs : Fs) (p : String) : Fs :=
  fs.filter (fun e => e.1 ≠ p)

/-- Model of `os.path.exists p`. -/
def fsExists (fs : Fs) (p : String) : Bool :=
  fs.any (fun e => e.1 = p)

/-- Model of `session.get(Collection, id)`. -/
def getCollection (db : Db) (id : Nat) : Option Collection :=
  db.collections.find? (fun c => c.id == id)

/-- Model of `session.get(Item, id)`. -/
def getItem (db : Db) (id : Nat) : Option Item :=
  db.items.find? (fun i => i.id == id)

/-- Persist an updated item row (matched by primary key). -/
def putItem (db : Db) (it : Item) : Db :=
  { db with items := db.items.map (fun j => if j.id == it.id then it else j) }

/-- Insert a freshly created item row. -/
def insertItem (db : Db) (it : Item) : Db :=
  { db with items := db.items ++ [it] }

/-- Delete an item row. -/
def removeItem (db : Db) (id : Nat) : Db :=
  { db with items := db.items.filter (fun j => j.id != id) }

/-- Persist an updated collection row. -/
def putCollection (db : Db) (c : Collection) : Db :=
  { db with collections := db.collections.map (fun j => if j.id == c.id then c else j) }

/-- Delete a collection row; the storage layer cascade-deletes its items. -/
def removeCollection (db : Db) (id : Nat) : Db :=
  { collections := db.collections.filter (fun c => c.id != id)
    items := db.items.filter (fun it => it.collection_id != id) }

/-- Status code of an error outcome, `none` on success. -/
def errStatus {α : Type} : Except HTTPError α → Option Nat
  | .error e => some e.status
  | .ok _ => none

/-- A `.where(...)` clause the listing route can attach to a select. -/
inductive QPred where
  | collectionEq (c : Nat)
  | ownerEq (uid : Nat)
deriving Repr, DecidableEq

/-- Evaluate one where-clause against one row. -/
def evalQPred : QPred → Item → Bool
  | .collectionEq c, it => it.collection_id == c
  | .ownerEq uid, it => it.owner_id == uid

/-- A select statement as built by `read_items`: where clauses plus optional
OFFSET/LIMIT window and `ORDER BY upload_date DESC`. -/
structure SelectStmt where
  wheres : List QPred := []
  off : Nat := 0
  lim : Option Nat := none
  orderByUploadDesc : Bool := false
deriving Repr, DecidableEq

/-- Conjunction of all where-clauses on a row. -/
def matchRow (s : SelectStmt) (it : Item) : Bool :=
  s.wheres.all (fun p => evalQPred p it)

/-- Insertion step of the newest-first sort on `upload_date`. -/
def insertDesc (x : Item) : List Item → List Item
  | [] => [x]
  | y :: ys => if x.upload_date > y.upload_date then x :: y :: ys else y :: insertDesc x ys

/-- Newest-first ordering on `upload_date` (the DB's ORDER BY ... DESC). -/
def sortDesc : List Item → List Item
  | [] => []
  | x :: xs => insertDesc x (sortDesc xs)

/-- SQL semantics of `session.exec(stmt).all()`: filter by the where-clauses,
order, then apply the OFFSET/LIMIT window. -/
def runSelect (rows : List Item) (s : SelectStmt) : List Item :=
  let filtered := rows.filter (matchRow s)
  let ordered := if s.orderByUploadDesc then sortDesc filtered else filtered
  let windowed := ordered.drop s.off
  match s.lim with
  | some n => windowed.take n
  | none => windowed

/-- SQL semantics of `select(func.count())` under the same where-clauses. -/
def runCount (rows : List Item) (s : SelectStmt) : Nat :=
  (rows.filter (matchRow s)).length

/-- items.py `read_items` (GET /items/): builds the page and count queries,
adds the collection filter under Python truthiness (`if collection_id:`),
and restricts non-admins to their own rows. -/
def read_items (s : Sys) (u : User) (skip limit : Nat) (collection_id : Option Nat) :
    ItemsPublic :=
  let base_query : SelectStmt := {}
  let count_query : SelectStmt := {}
  let bq_cq :=
    if pyTruthyNat collection_id then
      ({ base_query with wheres := base_query.wheres ++ [QPred.collectionEq (collection_id.getD 0)] },
       { count_query with wheres := count_query.wheres ++ [QPred.collectionEq (collection_id.getD 0)] })
    else (base_query, count_query)
  let base_query := bq_cq.1
  let count_query := bq_cq.2
  if u.is_superuser then
    let count := runCount s.db.items count_query
    let stmt := { base_query with off := skip, lim := some limit, orderByUploadDesc := true }
    ⟨runSelect s.db.items stmt, count⟩
  else
    let user_filter := QPred.ownerEq u.id
    let count_query := { count_query with wheres := count_query.wheres ++ [user_filter] }
    let count := runCount s.db.items count_query
    let stmt :=
      { base_query with
        wheres := base_query.wheres ++ [user_filter]
        off := skip
        lim := some limit
        orderByUploadDesc := true }
    ⟨runSelect s.db.items stmt, count⟩

/-- items.py `read_item` (GET /items/\x7bid\x7d): 404 on a missing id, then the
read permission `admin or owner or (collection and collection.is_public)`. -/
def read_item (s : Sys) (u : User) (id : Nat) : OpResult Item :=
  match getItem s.db id with
  | none => ⟨.error ⟨404, "Image not found"⟩, s, []⟩
  | some item =>
    let collection := getCollection s.db item.collection_id
    if !(u.is_superuser || item.owner_id == u.id ||
         (match collection with | some c => c.is_public | none => false)) then
      ⟨.error ⟨403, "Not enough permissions"⟩, s, []⟩
    else ⟨.ok item, s, []⟩

/-- Parsing of one optional date form field (items.py:140-152, 242-252):
absent stays absent, present strings go through
`datetime.fromisoformat(v.replace('Z', '+00:00'))`, a `ValueError` becomes a
400 `HTTPException`. -/
def parseDateField (env : Env) (field : Option String) (label : String) :
    Except HTTPError (Option Int) :=
  match field with
  | none => Except.ok none
  | some v =>
    match env.parseISO (v.replace "Z" "+00:00") with
    | none => Except.error ⟨400, "Invalid " ++ label ++ " format. Use ISO format."⟩
    | some d => Except.ok (some d)

/-- items.py `upload_image` (POST /items/upload): existence and permission
checks, content-type gate, file write, best-effort decode, date parsing, and
the record insert.  The whole block from the file write onward sits in a
`try` whose `except Exception` deletes the written file and re-raises a 500
wrapping the original error. -/
def upload_image (env : Env) (s : Sys) (u : User) (file : UploadFile)
    (title : String) (description alt_text veneration : Option String)
    (commission_date owned_since : Option String) (monitory_value : Option Int)
    (collection_id : Nat) (now newId : Nat) : OpResult Item :=
  match getCollection s.db collection_id with
  | none => ⟨.error ⟨404, "Collection not found"⟩, s, []⟩
  | some collection =>
    if !(u.is_superuser || collection.is_public || collection.created_by == u.id) then
      ⟨.error ⟨403, "Cannot upload to this collection"⟩, s, []⟩
    else if !contentTypeIsImage file.content_type then
      ⟨.error ⟨400, "File must be an image"⟩, s, []⟩
    else
      let unique_filename := env.uuidName ++ extFor file.filename
      let collection_dir := env.imageStoragePath ++ "/" ++ dirOfName collection.name
      let file_path := collection_dir ++ "/" ++ unique_filename
      let contents := file.content
      let fs1 := fsWrite s.fs file_path contents
      let ev1 : List Ev := [Ev.mkdir collection_dir, Ev.fsWrite file_path]
      let wh := env.decodeImage contents
      let tryRes : Except HTTPError (Option Int × Option Int) :=
        match parseDateField env commission_date "commission_date" with
        | .error e => .error e
        | .ok pcd =>
          match parseDateField env owned_since "owned_since" with
          | .error e => .error e
          | .ok pos => .ok (pcd, pos)
      match tryRes with
      | .error e =>
        let cleanup :=
          if fsExists fs1 file_path then (fsRemove fs1 file_path, ev1 ++ [Ev.fsRemove file_path])
          else (fs1, ev1)
        ⟨.error ⟨500, "Failed to upload image: " ++ toString e.status ++ ": " ++ e.detail⟩,
         ⟨s.db, cleanup.1⟩, cleanup.2⟩
      | .ok pd =>
        let item : Item := {
          id := newId
          title := title
          description := description
          veneration := veneration
          commission_date := pd.1
          owned_since := pd.2
          monitory_value := monitory_value
          filename := pyOrStr file.filename unique_filename
          file_path := file_path
          file_size := contents.length
          mime_type := file.content_type.getD ""
          width := wh.map Prod.fst
          height := wh.map Prod.snd
          alt_text := alt_text
          owner_id := u.id
          collection_id := collection_id
          upload_date := now }
        ⟨.ok item, ⟨insertItem s.db item, fs1⟩, ev1 ++ [Ev.dbCommit]⟩

/-- The `update_data` dict built by items.py `update_item` (lines 224-305):
an outer `none` means the key is absent from the dict.  `width`/`height` are
double-optional because the file branch stores possibly-`None` decode
results under those keys. -/
structure UpdateData where
  title : Option String := none
  description : Option String := none
  alt_text : Option String := none
  veneration : Option String := none
  monitory_value : Option Int := none
  collection_id : Option Nat := none
  commission_date : Option Int := none
  owned_since : Option Int := none
  filename : Option String := none
  file_path : Option String := none
  file_size : Option Nat := none
  mime_type : Option String := none
  width : Option (Option Nat) := none
  height : Option (Option Nat) := none
deriving Repr, DecidableEq

/-- Python dict truthiness of `update_data` (`if update_data:` at items.py:314). -/
def UpdateData.isEmptyDict (d : UpdateData) : Bool :=
  d.title.isNone && d.description.isNone && d.alt_text.isNone && d.veneration.isNone &&
  d.monitory_value.isNone && d.collection_id.isNone && d.commission_date.isNone &&
  d.owned_since.isNone && d.filename.isNone && d.file_path.isNone && d.file_size.isNone &&
  d.mime_type.isNone && d.width.isNone && d.height.isNone

/-- Model of `item.sqlmodel_update(update_data)`: keys present in the dict overwrite
the row's columns, absent keys leave them untouched. -/
def applyUpdateData (it : Item) (d : UpdateData) : Item :=
  { it with
    title := d.title.getD it.title
    description := mergeOpt d.description it.description
    alt_text := mergeOpt d.alt_text it.alt_text
    veneration := mergeOpt d.veneration it.veneration
    monitory_value := mergeOpt d.monitory_value it.monitory_value
    collection_id := d.collection_id.getD it.collection_id
    commission_date := mergeOpt d.commission_date it.commission_date
    owned_since := mergeOpt d.owned_since it.owned_since
    filename := d.filename.getD it.filename
    file_path := d.file_path.getD it.file_path
    file_size := d.file_size.getD it.file_size
    mime_type := d.mime_type.getD it.mime_type
    width := d.width.getD it.width
    height := d.height.getD it.height }

/-- Target-collection validation shared by PUT and PATCH item updates
(items.py:215-222 and 345-352): absent id passes, a missing target is a 404,
a target the identity cannot write to is a 403. -/
def moveCheck (s : Sys) (u : User) (collection_id : Option Nat) : Option HTTPError :=
  match collection_id with
  | none => none
  | some cid =>
    match getCollection s.db cid with
    | none => some ⟨404, "Target collection not found"⟩
    | some nc =>
      if u.is_superuser || nc.is_public || nc.created_by == u.id then none
      else some ⟨403, "Cannot move image to this collection"⟩

/-- items.py:264-267: the collection whose name determines the storage
directory for a replacement file — the item's current collection, overridden
by the new one when `collection_id` is truthy. -/
def resolveUpdateCollection (s : Sys) (item : Item) (collection_id : Option Nat) :
    Option Collection :=
  let collection := getCollection s.db item.collection_id
  if pyTruthyNat collection_id then getCollection s.db (collection_id.getD 0) else collection

/-- Tail of items.py `update_item` (lines 313-320): commit the accumulated
`update_data` when the dict is non-empty, else return the row unchanged. -/
def finishUpdate (s : Sys) (item : Item) (d : UpdateData) (fsNow : Fs) (evs : List Ev) :
    OpResult Item :=
  if d.isEmptyDict then ⟨.ok item, ⟨s.db, fsNow⟩, evs⟩
  else
    let item1 := applyUpdateData item d
    ⟨.ok item1, ⟨putItem s.db item1, fsNow⟩, evs ++ [Ev.dbCommit]⟩

/-- items.py `update_item` (PUT /items/\x7bid\x7d): 404 on a missing id, the
owner-or-admin gate, target-collection validation, the sparse `update_data`
build, date parsing, and — when a file is supplied — the replacement block:
write the new file, decode it, delete the old file (ignoring failure), stage
the file columns, then commit.  A dangling current-collection reference with
no truthy new id would crash Python on `collection.name`; that surfaces as
the framework's 500. -/
def update_item (env : Env) (s : Sys) (u : User) (id : Nat) (file : Option UploadFile)
    (title description alt_text veneration : Option String)
    (commission_date owned_since : Option String) (monitory_value : Option Int)
    (collection_id : Option Nat) : OpResult Item :=
  match getItem s.db id with
  | none => ⟨.error ⟨404, "Image not found"⟩, s, []⟩
  | some item =>
    if !u.is_superuser && item.owner_id != u.id then
      ⟨.error ⟨403, "Not enough permissions"⟩, s, []⟩
    else
      match moveCheck s u collection_id with
      | some e => ⟨.error e, s, []⟩
      | none =>
        let d0 : UpdateData := {
          title := title
          description := description
          alt_text := alt_text
          veneration := veneration
          monitory_value := monitory_value
          collection_id := collection_id }
        match parseDateField env commission_date "commission_date" with
        | .error e => ⟨.error e, s, []⟩
        | .ok pcd =>
          match parseDateField env owned_since "owned_since" with
          | .error e => ⟨.error e, s, []⟩
          | .ok pos =>
            let d1 := { d0 with commission_date := pcd, owned_since := pos }
            match file with
            | none => finishUpdate s item d1 s.fs []
            | some f =>
              if !contentTypeIsImage f.content_type then
                ⟨.error ⟨400, "File must be an image"⟩, s, []⟩
              else
                match resolveUpdateCollection s item collection_id with
                | none => ⟨.error ⟨500, "AttributeError on missing collection"⟩, s, []⟩
                | some col =>
                  let unique_filename := env.uuidName ++ extFor f.filename
                  let collection_dir := env.imageStoragePath ++ "/" ++ dirOfName col.name
                  let new_file_path := collection_dir ++ "/" ++ unique_filename
                  let contents := f.content
                  let fs1 := fsWrite s.fs new_file_path contents
                  let wh := env.decodeImage contents
                  let del :=
                    if fsExists fs1 item.file_path then
                      (fsRemove fs1 item.file_path, [Ev.fsRemove item.file_path])
                    else (fs1, ([] : List Ev))
                  let d2 := { d1 with
                    filename := some (pyOrStr f.filename unique_filename)
                    file_path := some new_file_path
                    file_size := some contents.length
                    mime_type := some (f.content_type.getD "")
                    width := some (wh.map Prod.fst)
                    height := some (wh.map Prod.snd) }
                  finishUpdate s item d2 del.1
                    ([Ev.mkdir collection_dir, Ev.fsWrite new_file_path] ++ del.2)

/-- Model of `item.sqlmodel_update(item_in.model_dump(exclude_unset=True))` of the
PATCH route: only fields present in the patch overwrite columns. -/
def applyItemUpdate (it : Item) (p : ItemUpdate) : Item :=
  { it with
    title := p.title.getD it.title
    veneration := mergeOpt p.veneration it.veneration
    commission_date := mergeOpt p.commission_date it.commission_date
    owned_since := mergeOpt p.owned_since it.owned_since
    monitory_value := mergeOpt p.monitory_value it.monitory_value
    description := mergeOpt p.description it.description
    alt_text := mergeOpt p.alt_text it.alt_text
    collection_id := p.collection_id.getD it.collection_id }

/-- items.py `update_item_metadata` (PATCH /items/\x7bid\x7d): 404 on a missing
id, the owner-or-admin gate, target-collection validation when the patch
carries `collection_id`, then the sparse merge and commit.  No filesystem
access anywhere on this route. -/
def update_item_metadata (s : Sys) (u : User) (id : Nat) (item_in : ItemUpdate) :
    OpResult Item :=
  match getItem s.db id with
  | none => ⟨.error ⟨404, "Image not found"⟩, s, []⟩
  | some item =>
    if !u.is_superuser && item.owner_id != u.id then
      ⟨.error ⟨403, "Not enough permissions"⟩, s, []⟩
    else
      match moveCheck s u item_in.collection_id with
      | some e => ⟨.error e, s, []⟩
      | none =>
        let item1 := applyItemUpdate item item_in
        ⟨.ok item1, ⟨putItem s.db item1, s.fs⟩, [Ev.dbCommit]⟩

/-- items.py `delete_item` (DELETE /items/\x7bid\x7d): 404, owner-or-admin gate,
best-effort file removal (failure swallowed), then record delete + commit. -/
def delete_item (s : Sys) (u : User) (id : Nat) : OpResult String :=
  match getItem s.db id with
  | none => ⟨.error ⟨404, "Image not found"⟩, s, []⟩
  | some item =>
    if !u.is_superuser && item.owner_id != u.id then
      ⟨.error ⟨403, "Not enough permissions"⟩, s, []⟩
    else
      let del :=
        if fsExists s.fs item.file_path then
          (fsRemove s.fs item.file_path, [Ev.fsRemove item.file_path])
        else (s.fs, ([] : List Ev))
      ⟨.ok "Image deleted successfully", ⟨removeItem s.db item.id, del.1⟩,
       del.2 ++ [Ev.dbCommit]⟩

/-- collections.py `read_collection` (GET /collections/\x7bid\x7d): 404 on a
missing id, then `admin or creator or public`. -/
def read_collection (s : Sys) (u : User) (id : Nat) : OpResult Collection :=
  match getCollection s.db id with
  | none => ⟨.error ⟨404, "Collection not found"⟩, s, []⟩
  | some collection =>
    if !(u.is_superuser || collection.created_by == u.id || collection.is_public) then
      ⟨.error ⟨403, "Not enough permissions"⟩, s, []⟩
    else ⟨.ok collection, s, []⟩

/-- Model of `collection.sqlmodel_update(collection_in.model_dump(exclude_unset=True))`. -/
def applyCollectionUpdate (c : Collection) (p : CollectionUpdate) : Collection :=
  { c with
    name := p.name.getD c.name
    description := mergeOpt p.description c.description
    is_public := p.is_public.getD c.is_public }

/-- collections.py `update_collection` (PUT /collections/\x7bid\x7d): note the
admin-role gate runs BEFORE the existence lookup (lines 98-103). -/
def update_collection (s : Sys) (u : User) (id : Nat) (collection_in : CollectionUpdate) :
    OpResult Collection :=
  if !u.is_superuser then
    ⟨.error ⟨403, "Only administrators can update collections"⟩, s, []⟩
  else
    match getCollection s.db id with
    | none => ⟨.error ⟨404, "Collection not found"⟩, s, []⟩
    | some collection =>
      let c1 := applyCollectionUpdate collection collection_in
      ⟨.ok c1, ⟨putCollection s.db c1, s.fs⟩, [Ev.dbCommit]⟩

/-- collections.py `delete_collection` (DELETE /collections/\x7bid\x7d): the
admin-role gate likewise precedes the existence lookup (lines 121-126). -/
def delete_collection (s : Sys) (u : User) (id : Nat) : OpResult String :=
  if !u.is_superuser then
    ⟨.error ⟨403, "Only administrators can delete collections"⟩, s, []⟩
  else
    match getCollection s.db id with
    | none => ⟨.error ⟨404, "Collection not found"⟩, s, []⟩
    | some _ =>
      ⟨.ok "Collection deleted successfully", ⟨removeCollection s.db id, s.fs⟩, [Ev.dbCommit]⟩

/-- The optional collection filter of the listing, under Python truthiness. -/
def cidPass (collection_id : Option Nat) (it : Item) : Bool :=
  if pyTruthyNat collection_id then it.collection_id == collection_id.getD 0 else true

/-- The listing's effective row predicate: the optional collection filter
intersected with the role scope (admins unrestricted, everyone else limited
to rows they own). -/
def listingMatches (u : User) (collection_id : Option Nat) (it : Item) : Bool :=
  cidPass collection_id it && (u.is_superuser || it.owner_id == u.id)

/-- Helper scanning a trace left to right; the flag records whether a
`dbCommit` has occurred yet. -/
def removesAfterCommitAux (old : String) : List Ev → Bool → Bool
  | [], _ => true
  | Ev.dbCommit :: rest, _ => removesAfterCommitAux old rest true
  | Ev.fsRemove p :: rest, seen =>
    (if p = old then seen else true) && removesAfterCommitAux old rest seen
  | Ev.mkdir _ :: rest, seen => removesAfterCommitAux old rest seen
  | Ev.fsWrite _ :: rest, seen => removesAfterCommitAux old rest seen

/-- The ordering the spec asserts for replace-on-update: every unlink of the
old backing file happens only after some record commit is already durable. -/
def removesOnlyAfterCommit (t : List Ev) (old : String) : Bool :=
  removesAfterCommitAux old t false

/-- Test fixture: an admin identity. -/
def userAdmin : User := { id := 1, is_superuser := true }

/-- Test fixture: a regular (non-admin) identity. -/
def userPlain : User := { id := 2 }

/-- Test fixture: a public collection created by the admin. -/
def colArt : Collection := { id := 1, name := "Art", is_public := true, created_by := 1 }

/-- Test fixture: a private collection created by the admin. -/
def colSecret : Collection := { id := 2, name := "Secret", is_public := false, created_by := 1 }

/-- Test fixture: an item owned by the regular user, stored in `colArt`'s
directory. -/
def itemOld : Item := {
  id := 1
  title := "t"
  filename := "a.jpg"
  file_path := "/img/art/a.jpg"
  file_size := 3
  mime_type := "image/jpeg"
  owner_id := 2
  collection_id := 1
  upload_date := 1 }

/-- Test fixture: both collections, the one item, and its backing file. -/
def sysFix : Sys := {
  db := { collections := [colArt, colSecret], items := [itemOld] }
  fs := [("/img/art/a.jpg", [1, 2, 3])] }

/-- Test fixture: empty database and storage. -/
def sysEmpty : Sys := { db := {} }

/-- Test fixture environment: storage rooted at /img, this request drew uuid
token u1, image decoding fails benignly, and every date string is malformed
(`fromisoformat` raises). -/
def envFix : Env := {
  imageStoragePath := "/img"
  uuidName := "u1"
  decodeImage := fun _ => none
  parseISO := fun _ => none }

/-- Test fixture: a replacement upload payload. -/
def filePng : UploadFile := {
  filename := some "b.png"
  content_type := some "image/png"
  content := [9, 9] }

/-- Test fixture: a non-image upload payload. -/
def fileTxt : UploadFile := {
  filename := some "b.txt"
  content_type := some "text/plain"
  content := [7] }

/-- Test fixture: the database holding only the public collection. -/
def sysArtOnly : Sys := { db := { collections := [colArt] } }

/-- The concrete replace-on-update run used to examine event ordering: the
owner replaces the file of their item, changing nothing else. -/
def replaceRun : OpResult Item :=
  update_item envFix sysFix userPlain 1 (some filePng) none none none none none none none none

/-- The concrete upload run with a malformed `commission_date`. -/
def badDateRun : OpResult Item :=
  upload_image envFix sysArtOnly userPlain filePng "t" none none none
    (some "not-a-date") none none 1 5 7

/-- Filtering by pointwise-equal predicates gives the same list. -/
theorem filter_ext {α : Type} (p q : α → Bool) (l : List α) (h : ∀ x, p x = q x) :
    l.filter p = l.filter q := by
  induction l with
  | nil => rfl
  | cons a t ih => simp only [List.filter, h a, ih]

/-- Inserting into the newest-first order only permutes. -/
theorem insertDesc_perm (x : Item) (l : List Item) : List.Perm (insertDesc x l) (x :: l) := by
  induction l with
  | nil => exact List.Perm.refl _
  | cons y ys ih =>
    simp only [insertDesc]
    split
    · exact List.Perm.refl _
    · exact (ih.cons y).trans (List.Perm.swap x y ys)

/-- The newest-first sort is a permutation of its input. -/
theorem sortDesc_perm (l : List Item) : List.Perm (sortDesc l) l := by
  induction l with
  | nil => exact List.Perm.refl _
  | cons x xs ih => exact (insertDesc_perm x (sortDesc xs)).trans (ih.cons x)

/-- Membership is preserved by the newest-first sort. -/
theorem mem_sortDesc {x : Item} {l : List Item} (h : x ∈ sortDesc l) : x ∈ l :=
  (sortDesc_perm l).mem_iff.mp h

/-- Running a windowed, ordered select is filtering by the where-clauses,
sorting newest-first, and taking the window. -/
theorem runSelect_window (rows : List Item) (ps : List QPred) (skip limit : Nat)
    (q : Item → Bool)
    (h : ∀ it, (ps.all fun p => evalQPred p it) = q it) :
    runSelect rows { wheres := ps, off := skip, lim := some limit, orderByUploadDesc := true }
      = ((sortDesc (rows.filter q)).drop skip).take limit := by
  have hf : rows.filter
      (matchRow { wheres := ps, off := skip, lim := some limit, orderByUploadDesc := true })
        = rows.filter q := filter_ext _ _ _ h
  simp [runSelect, hf]

/-- Running a count statement counts the rows matching its where-clauses. -/
theorem runCount_pred (rows : List Item) (st : SelectStmt) (q : Item → Bool)
    (h : ∀ it, (st.wheres.all fun p => evalQPred p it) = q it) :
    runCount rows st = (rows.filter q).length := by
  have hf : rows.filter (matchRow st) = rows.filter q := filter_ext _ _ _ h
  simp [runCount, hf]

/-- Refinement of the listing route: for every role and every optional
collection filter, the page is the OFFSET/LIMIT window of the newest-first
ordering of the rows matching `listingMatches`, and the count is the size of
that full matching set. -/
theorem read_items_spec (s : Sys) (u : User) (skip limit : Nat) (cid : Option Nat) :
    (read_items s u skip limit cid).data
      = ((sortDesc (s.db.items.filter (listingMatches u cid))).drop skip).take limit
    ∧ (read_items s u skip limit cid).count
      = (s.db.items.filter (listingMatches u cid)).length := by
  by_cases hA : u.is_superuser = true
  · by_cases hT : pyTruthyNat cid = true
    · simp only [read_items, hT, hA, if_true, ite_true, List.nil_append]
      refine ⟨runSelect_window _ _ _ _ _ fun it => ?_, runCount_pred _ _ _ fun it => ?_⟩ <;>
        simp [evalQPred, listingMatches, cidPass, hA, hT]
    · simp only [read_items, hT, hA, if_true, ite_true, if_false, ite_false, List.nil_append]
      refine ⟨runSelect_window _ _ _ _ _ fun it => ?_, runCount_pred _ _ _ fun it => ?_⟩ <;>
        simp [evalQPred, listingMatches, cidPass, hA, hT]
  · by_cases hT : pyTruthyNat cid = true
    · simp only [read_items, hT, hA, if_true, ite_true, if_false, ite_false, List.nil_append]
      refine ⟨runSelect_window _ _ _ _ _ fun it => ?_, runCount_pred _ _ _ fun it => ?_⟩ <;>
        simp [evalQPred, listingMatches, cidPass, hA, hT]
    · simp only [read_items, hT, hA, if_false, ite_false, List.nil_append]
      refine ⟨runSelect_window _ _ _ _ _ fun it => ?_, runCount_pred _ _ _ fun it => ?_⟩ <;>
        simp [evalQPred, listingMatches, cidPass, hA, hT]

/-- C9: in the item listing, an explicit `collection_id` of 0 is Python-falsy,
so the collection filter is skipped and the call behaves exactly like a call
with no collection filter at all. -/
theorem C9_collection_id_zero_is_unfiltered (s : Sys) (u : User) (skip limit : Nat) :
    read_items s u skip limit (some 0) = read_items s u skip limit none := rfl

/-- C1 counterexample: with an empty database, a non-admin's PUT/DELETE of
collection id 1 — an id that refers to no existing resource — is answered
403 Forbidden, not 404 NotFound: collections.py checks the admin role before
the existence lookup. -/
theorem C1_counterexample :
    getCollection sysEmpty.db 1 = none
    ∧ errStatus (update_collection sysEmpty userPlain 1 {}).res = some 403
    ∧ errStatus (delete_collection sysEmpty userPlain 1).res = some 403
    ∧ errStatus (update_collection sysEmpty userPlain 1 {}).res ≠ some 404
    ∧ errStatus (delete_collection sysEmpty userPlain 1).res ≠ some 404 := by
  decide

/-- C2 counterexample: in a successful replace-on-update run the trace shows
the old backing file being unlinked BEFORE the record commit, so the claimed
ordering (record durable first, old file unlinked only afterwards) is false
on this run. -/
theorem C2_counterexample :
    replaceRun.trace = [Ev.mkdir "/img/art", Ev.fsWrite "/img/art/u1.png",
      Ev.fsRemove "/img/art/a.jpg", Ev.dbCommit]
    ∧ errStatus replaceRun.res = none
    ∧ removesOnlyAfterCommit replaceRun.trace "/img/art/a.jpg" = false := by
  decide

/-- C3: uploading with malformed `commission_date` "not-a-date" writes the
file, hits the date 400, whose exception the blanket `except` converts into
a 500 "Failed to upload image: ..." — so the surfaced failure is an internal
error, not InvalidInput — while the written file IS removed, leaving storage
exactly as before the call. -/
theorem C3_invalid_date_surfaces_500_but_cleans_up :
    errStatus badDateRun.res = some 500
    ∧ errStatus badDateRun.res ≠ some 400
    ∧ badDateRun.sys.fs = sysArtOnly.fs
    ∧ badDateRun.trace = [Ev.mkdir "/img/art", Ev.fsWrite "/img/art/u1.png",
        Ev.fsRemove "/img/art/u1.png"] := by
  decide

/-- C8: for every item listing, the returned page is exactly the
[skip+1 .. skip+limit] window of the matching rows in newest-first
`upload_date` order, and the returned count is the size of the full matching
set under the same predicate, independent of skip and limit. -/
theorem C8_page_is_window_and_count_is_total (s : Sys) (u : User) (skip limit : Nat)
    (cid : Option Nat) :
    (read_items s u skip limit cid).data
      = ((sortDesc (s.db.items.filter (listingMatches u cid))).drop skip).take limit
    ∧ (read_items s u skip limit cid).count
      = (s.db.items.filter (listingMatches u cid)).length :=
  read_items_spec s u skip limit cid

/-- C4: a non-admin's item listing returns only items they own — no
collection's public flag enters the listing query at all — and the count
counts exactly the owned rows passing the same optional collection filter. -/
theorem C4_nonadmin_list_only_owned (s : Sys) (u : User) (skip limit : Nat)
    (cid : Option Nat) (h : u.is_superuser = false) :
    (∀ it ∈ (read_items s u skip limit cid).data, it.owner_id = u.id)
    ∧ (read_items s u skip limit cid).count
      = (s.db.items.filter fun it => cidPass cid it && it.owner_id == u.id).length := by
  obtain ⟨hdata, hcount⟩ := read_items_spec s u skip limit cid
  constructor
  · intro it hit
    rw [hdata] at hit
    have h1 : it ∈ sortDesc (s.db.items.filter (listingMatches u cid)) :=
      List.drop_subset _ _ (List.take_subset _ _ hit)
    have h2 := (List.mem_filter.mp (mem_sortDesc h1)).2
    simp only [listingMatches, h, Bool.false_or, Bool.and_eq_true, beq_iff_eq] at h2
    exact h2.2
  · rw [hcount]
    congr 1
    apply filter_ext
    intro it
    simp only [listingMatches, h, Bool.false_or]

/-- Test fixture: an item owned by the admin, sitting in the same public
collection as `itemOld`. -/
def itemOther : Item := {
  id := 2
  title := "o"
  filename := "c.jpg"
  file_path := "/img/art/c.jpg"
  file_size := 1
  mime_type := "image/jpeg"
  owner_id := 1
  collection_id := 1
  upload_date := 5 }

/-- Test fixture: a public collection holding items of two different owners. -/
def sysTwo : Sys := { db := { collections := [colArt], items := [itemOld, itemOther] } }

/-- C4 witness: the non-admin hypothesis discharged on a concrete state in
which another owner's item sits in a public collection. -/
theorem C4_nonadmin_list_only_owned_witness :
    userPlain.is_superuser = false
    ∧ ((∀ it ∈ (read_items sysTwo userPlain 0 100 none).data, it.owner_id = userPlain.id)
       ∧ (read_items sysTwo userPlain 0 100 none).count
         = (sysTwo.db.items.filter fun it => cidPass none it && it.owner_id == userPlain.id).length) :=
  ⟨by decide, C4_nonadmin_list_only_owned sysTwo userPlain 0 100 none (by decide)⟩

/-- C1 (amended): a nonexistent id produces 404 before any permission check
for item read, item update (PUT and PATCH), item delete and collection read,
for every identity; but collection update and delete check the admin role
first, so there a non-admin receives 403 — not 404 — even when the id does
not exist, while an admin receives the 404. -/
theorem C1_not_found_before_forbidden_amended (env : Env) (s : Sys) (u : User)
    (idI idC : Nat) (file : Option UploadFile) (t1 d1 a1 v1 cd1 os1 : Option String)
    (mv : Option Int) (cid : Option Nat) (item_in : ItemUpdate) (cin : CollectionUpdate)
    (hI : getItem s.db idI = none) (hC : getCollection s.db idC = none) :
    errStatus (read_item s u idI).res = some 404
    ∧ errStatus (update_item env s u idI file t1 d1 a1 v1 cd1 os1 mv cid).res = some 404
    ∧ errStatus (update_item_metadata s u idI item_in).res = some 404
    ∧ errStatus (delete_item s u idI).res = some 404
    ∧ errStatus (read_collection s u idC).res = some 404
    ∧ (u.is_superuser = true →
        errStatus (update_collection s u idC cin).res = some 404
        ∧ errStatus (delete_collection s u idC).res = some 404)
    ∧ (u.is_superuser = false →
        errStatus (update_collection s u idC cin).res = some 403
        ∧ errStatus (delete_collection s u idC).res = some 403) := by
  refine ⟨?_, ?_, ?_, ?_, ?_, ?_, ?_⟩
  · simp [read_item, hI, errStatus]
  · simp [update_item, hI, errStatus]
  · simp [update_item_metadata, hI, errStatus]
  · simp [delete_item, hI, errStatus]
  · simp [read_collection, hC, errStatus]
  · intro hA
    exact ⟨by simp [update_collection, hA, hC, errStatus],
           by simp [delete_collection, hA, hC, errStatus]⟩
  · intro hA
    exact ⟨by simp [update_collection, hA, errStatus],
           by simp [delete_collection, hA, errStatus]⟩

/-- C1 witness: the amended statement instantiated on the empty store for a
non-admin identity. -/
theorem C1_not_found_before_forbidden_witness :
    (getItem sysEmpty.db 1 = none ∧ getCollection sysEmpty.db 1 = none)
    ∧ (errStatus (read_item sysEmpty userPlain 1).res = some 404
       ∧ errStatus (update_item envFix sysEmpty userPlain 1 none none none none none
           none none none none).res = some 404
       ∧ errStatus (update_item_metadata sysEmpty userPlain 1 {}).res = some 404
       ∧ errStatus (delete_item sysEmpty userPlain 1).res = some 404
       ∧ errStatus (read_collection sysEmpty userPlain 1).res = some 404
       ∧ (userPlain.is_superuser = true →
           errStatus (update_collection sysEmpty userPlain 1 {}).res = some 404
           ∧ errStatus (delete_collection sysEmpty userPlain 1).res = some 404)
       ∧ (userPlain.is_superuser = false →
           errStatus (update_collection sysEmpty userPlain 1 {}).res = some 403
           ∧ errStatus (delete_collection sysEmpty userPlain 1).res = some 403)) :=
  ⟨⟨by decide, by decide⟩,
   C1_not_found_before_forbidden_amended envFix sysEmpty userPlain 1 1 none none none
     none none none none none none {} {} (by decide) (by decide)⟩

/-- The storage directory a replacement file is written under. -/
def updateDir (env : Env) (col : Collection) : String :=
  env.imageStoragePath ++ "/" ++ dirOfName col.name

/-- The full path of a replacement file. -/
def updatePath (env : Env) (col : Collection) (f : UploadFile) : String :=
  updateDir env col ++ "/" ++ (env.uuidName ++ extFor f.filename)

/-- C2 (amended): in every successful replace-on-update run the old backing
file is unlinked AFTER the new file is written but BEFORE the record update
is committed — the trace is exactly mkdir, write-new, remove-old, commit.
The ordering asserted by the spec (commit durable first, old file unlinked
only afterwards) is refuted separately at a concrete run. -/
theorem C2_old_file_removed_before_commit (env : Env) (s : Sys) (u : User) (id : Nat)
    (item : Item) (f : UploadFile) (t1 d1 a1 v1 cd1 os1 : Option String)
    (mv : Option Int) (cid : Option Nat) (pcd pos : Option Int) (col : Collection)
    (hget : getItem s.db id = some item)
    (hperm : (!u.is_superuser && item.owner_id != u.id) = false)
    (hmove : moveCheck s u cid = none)
    (hcd : parseDateField env cd1 "commission_date" = Except.ok pcd)
    (hos : parseDateField env os1 "owned_since" = Except.ok pos)
    (hct : contentTypeIsImage f.content_type = true)
    (hcol : resolveUpdateCollection s item cid = some col)
    (hold : fsExists (fsWrite s.fs (updatePath env col f) f.content) item.file_path = true) :
    (update_item env s u id (some f) t1 d1 a1 v1 cd1 os1 mv cid).trace
      = [Ev.mkdir (updateDir env col), Ev.fsWrite (updatePath env col f),
         Ev.fsRemove item.file_path, Ev.dbCommit]
    ∧ errStatus (update_item env s u id (some f) t1 d1 a1 v1 cd1 os1 mv cid).res = none := by
  simp only [updatePath, updateDir] at hold
  constructor <;>
    simp [update_item, hget, hperm, hmove, hcd, hos, hct, hcol, hold, finishUpdate,
      UpdateData.isEmptyDict, updatePath, updateDir, errStatus]

/-- C2 witness: the amended ordering observed on the concrete replacement
run of `C2_counterexample`'s scenario. -/
theorem C2_old_file_removed_before_commit_witness :
    (getItem sysFix.db 1 = some itemOld
     ∧ (!userPlain.is_superuser && itemOld.owner_id != userPlain.id) = false
     ∧ moveCheck sysFix userPlain none = none
     ∧ parseDateField envFix none "commission_date" = Except.ok none
     ∧ parseDateField envFix none "owned_since" = Except.ok none
     ∧ contentTypeIsImage filePng.content_type = true
     ∧ resolveUpdateCollection sysFix itemOld none = some colArt
     ∧ fsExists (fsWrite sysFix.fs (updatePath envFix colArt filePng) filePng.content)
         itemOld.file_path = true)
    ∧ ((update_item envFix sysFix userPlain 1 (some filePng) none none none none none
          none none none).trace
        = [Ev.mkdir (updateDir envFix colArt), Ev.fsWrite (updatePath envFix colArt filePng),
           Ev.fsRemove itemOld.file_path, Ev.dbCommit]
       ∧ errStatus (update_item envFix sysFix userPlain 1 (some filePng) none none none
           none none none none none).res = none) :=
  ⟨⟨by decide, by decide, rfl, rfl, rfl, by decide, by decide, by decide⟩,
   C2_old_file_removed_before_commit envFix sysFix userPlain 1 itemOld filePng
     none none none none none none none none none none colArt
     (by decide) (by decide) rfl rfl rfl (by decide) (by decide) (by decide)⟩

/-- C5: a request to move an item the identity may update into a target
collection the identity cannot write to (existing, private, created by
someone else, identity not admin) fails 403 on both the PUT and the PATCH
route and leaves the whole state — in particular the item's `collection_id`
and every other field — unchanged. -/
theorem C5_move_to_unwritable_target_forbidden (env : Env) (s : Sys) (u : User)
    (id : Nat) (item : Item) (cid : Nat) (nc : Collection) (item_in : ItemUpdate)
    (file : Option UploadFile) (t1 d1 a1 v1 cd1 os1 : Option String) (mv : Option Int)
    (hget : getItem s.db id = some item)
    (hown : item.owner_id = u.id)
    (hadm : u.is_superuser = false)
    (hpatch : item_in.collection_id = some cid)
    (hcoll : getCollection s.db cid = some nc)
    (hpub : nc.is_public = false)
    (hcreator : (nc.created_by == u.id) = false) :
    errStatus (update_item_metadata s u id item_in).res = some 403
    ∧ (update_item_metadata s u id item_in).sys = s
    ∧ (update_item_metadata s u id item_in).trace = []
    ∧ errStatus (update_item env s u id file t1 d1 a1 v1 cd1 os1 mv (some cid)).res = some 403
    ∧ (update_item env s u id file t1 d1 a1 v1 cd1 os1 mv (some cid)).sys = s
    ∧ (update_item env s u id file t1 d1 a1 v1 cd1 os1 mv (some cid)).trace = [] := by
  have hmc : moveCheck s u (some cid) = some ⟨403, "Cannot move image to this collection"⟩ := by
    simp [moveCheck, hcoll, hadm, hpub, hcreator]
  have hperm : (!u.is_superuser && item.owner_id != u.id) = false := by
    simp [hown]
  refine ⟨?_, ?_, ?_, ?_, ?_, ?_⟩ <;>
    simp [update_item_metadata, update_item, hget, hperm, hpatch, hmc, errStatus]

/-- C5 witness: the regular user owns the item but cannot write to the
admin-created private collection. -/
theorem C5_move_to_unwritable_target_forbidden_witness :
    (getItem sysFix.db 1 = some itemOld
     ∧ itemOld.owner_id = userPlain.id
     ∧ userPlain.is_superuser = false
     ∧ (ItemUpdate.collection_id { collection_id := some 2 } = some 2)
     ∧ getCollection sysFix.db 2 = some colSecret
     ∧ colSecret.is_public = false
     ∧ (colSecret.created_by == userPlain.id) = false)
    ∧ (errStatus (update_item_metadata sysFix userPlain 1 { collection_id := some 2 }).res = some 403
       ∧ (update_item_metadata sysFix userPlain 1 { collection_id := some 2 }).sys = sysFix
       ∧ (update_item_metadata sysFix userPlain 1 { collection_id := some 2 }).trace = []
       ∧ errStatus (update_item envFix sysFix userPlain 1 none none none none none none
           none none (some 2)).res = some 403
       ∧ (update_item envFix sysFix userPlain 1 none none none none none none
           none none (some 2)).sys = sysFix
       ∧ (update_item envFix sysFix userPlain 1 none none none none none none
           none none (some 2)).trace = []) :=
  ⟨⟨by decide, by decide, by decide, rfl, by decide, by decide, by decide⟩,
   C5_move_to_unwritable_target_forbidden envFix sysFix userPlain 1 itemOld 2 colSecret
     { collection_id := some 2 } none none none none none none none none
     (by decide) (by decide) (by decide) rfl (by decide) (by decide) (by decide)⟩

/-- C6: an upload whose declared content type is absent or does not start
with "image/" never touches the filesystem (state unchanged, empty trace,
for every identity and collection id), and when the request otherwise passes
the existence and permission gates the surfaced failure is the 400
InvalidInput of the content-type check. -/
theorem C6_nonimage_rejected_before_any_write (env : Env) (s : Sys) (u : User)
    (file : UploadFile) (title : String) (d1 a1 v1 : Option String)
    (cd1 os1 : Option String) (mv : Option Int) (cid now newId : Nat)
    (hct : contentTypeIsImage file.content_type = false) :
    (upload_image env s u file title d1 a1 v1 cd1 os1 mv cid now newId).sys = s
    ∧ (upload_image env s u file title d1 a1 v1 cd1 os1 mv cid now newId).trace = []
    ∧ (∀ c, getCollection s.db cid = some c →
        (u.is_superuser || c.is_public || c.created_by == u.id) = true →
        errStatus (upload_image env s u file title d1 a1 v1 cd1 os1 mv cid now newId).res
          = some 400) := by
  cases hc : getCollection s.db cid with
  | none =>
    refine ⟨?_, ?_, ?_⟩
    · simp [upload_image, hc]
    · simp [upload_image, hc]
    · intro c hc' hp
      exact Option.noConfusion hc'
  | some c =>
    by_cases hperm : (u.is_superuser || c.is_public || c.created_by == u.id) = true
    · refine ⟨?_, ?_, ?_⟩
      · simp [upload_image, hc, hperm, hct]
      · simp [upload_image, hc, hperm, hct]
      · intro c' hc' hp
        simp [upload_image, hc, hperm, hct, errStatus]
    · have hpermF : (u.is_superuser || c.is_public || c.created_by == u.id) = false := by
        revert hperm
        cases u.is_superuser || c.is_public || c.created_by == u.id <;> simp
      refine ⟨?_, ?_, ?_⟩
      · simp [upload_image, hc, hpermF]
      · simp [upload_image, hc, hpermF]
      · intro c' hc' hp
        injection hc' with he
        subst he
        rw [hp] at hpermF
        exact absurd hpermF (by decide)

/-- C6 witness: a text/plain upload into an existing public collection. -/
theorem C6_nonimage_rejected_before_any_write_witness :
    contentTypeIsImage fileTxt.content_type = false
    ∧ ((upload_image envFix sysArtOnly userPlain fileTxt "t" none none none none none
          none 1 5 7).sys = sysArtOnly
       ∧ (upload_image envFix sysArtOnly userPlain fileTxt "t" none none none none none
           none 1 5 7).trace = []
       ∧ (∀ c, getCollection sysArtOnly.db 1 = some c →
           (userPlain.is_superuser || c.is_public || c.created_by == userPlain.id) = true →
           errStatus (upload_image envFix sysArtOnly userPlain fileTxt "t" none none none
             none none none 1 5 7).res = some 400)) :=
  ⟨by decide,
   C6_nonimage_rejected_before_any_write envFix sysArtOnly userPlain fileTxt "t"
     none none none none none none 1 5 7 (by decide)⟩

/-- A patch that supplies only a title. -/
def titleOnly (t : String) : ItemUpdate := { title := some t }

/-- C7: a metadata patch supplying only a title succeeds and produces the
item with only its title changed; and in the sparse merge, every field
absent from the patch — including, structurally, all file attributes,
`owner_id` and `upload_date`, which no patch can carry — keeps its stored
value. -/
theorem C7_sparse_patch_frames_absent_fields (s : Sys) (u : User) (id : Nat)
    (item : Item) (t : String) (item_in : ItemUpdate)
    (hget : getItem s.db id = some item)
    (hperm : (!u.is_superuser && item.owner_id != u.id) = false) :
    (update_item_metadata s u id (titleOnly t)).res = Except.ok { item with title := t }
    ∧ (update_item_metadata s u id (titleOnly t)).sys.fs = s.fs
    ∧ (item_in.title = none → (applyItemUpdate item item_in).title = item.title)
    ∧ (item_in.description = none →
        (applyItemUpdate item item_in).description = item.description)
    ∧ (item_in.veneration = none →
        (applyItemUpdate item item_in).veneration = item.veneration)
    ∧ (item_in.commission_date = none →
        (applyItemUpdate item item_in).commission_date = item.commission_date)
    ∧ (item_in.owned_since = none →
        (applyItemUpdate item item_in).owned_since = item.owned_since)
    ∧ (item_in.monitory_value = none →
        (applyItemUpdate item item_in).monitory_value = item.monitory_value)
    ∧ (item_in.alt_text = none → (applyItemUpdate item item_in).alt_text = item.alt_text)
    ∧ (item_in.collection_id = none →
        (applyItemUpdate item item_in).collection_id = item.collection_id)
    ∧ (applyItemUpdate item item_in).filename = item.filename
    ∧ (applyItemUpdate item item_in).file_path = item.file_path
    ∧ (applyItemUpdate item item_in).file_size = item.file_size
    ∧ (applyItemUpdate item item_in).mime_type = item.mime_type
    ∧ (applyItemUpdate item item_in).width = item.width
    ∧ (applyItemUpdate item item_in).height = item.height
    ∧ (applyItemUpdate item item_in).owner_id = item.owner_id
    ∧ (applyItemUpdate item item_in).upload_date = item.upload_date := by
  refine ⟨?_, ?_, ?_, ?_, ?_, ?_, ?_, ?_, ?_, ?_, rfl, rfl, rfl, rfl, rfl, rfl, rfl, rfl⟩
  · simp [update_item_metadata, hget, hperm, titleOnly, moveCheck, applyItemUpdate, mergeOpt]
  · simp [update_item_metadata, hget, hperm, titleOnly, moveCheck]
  all_goals intro h
  all_goals simp [applyItemUpdate, mergeOpt, h]

/-- C7 witness: the owner retitles their item; the hypotheses hold on the
concrete fixture. -/
theorem C7_sparse_patch_frames_absent_fields_witness :
    (getItem sysFix.db 1 = some itemOld
     ∧ (!userPlain.is_superuser && itemOld.owner_id != userPlain.id) = false)
    ∧ ((update_item_metadata sysFix userPlain 1 (titleOnly "New Title")).res
        = Except.ok { itemOld with title := "New Title" }
       ∧ (update_item_metadata sysFix userPlain 1 (titleOnly "New Title")).sys.fs = sysFix.fs
       ∧ (ItemUpdate.title { description := some "x" } = none →
           (applyItemUpdate itemOld { description := some "x" }).title = itemOld.title)
       ∧ (ItemUpdate.description { description := some "x" } = none →
           (applyItemUpdate itemOld { description := some "x" }).description = itemOld.description)
       ∧ (ItemUpdate.veneration { description := some "x" } = none →
           (applyItemUpdate itemOld { description := some "x" }).veneration = itemOld.veneration)
       ∧ (ItemUpdate.commission_date { description := some "x" } = none →
           (applyItemUpdate itemOld { description := some "x" }).commission_date = itemOld.commission_date)
       ∧ (ItemUpdate.owned_since { description := some "x" } = none →
           (applyItemUpdate itemOld { description := some "x" }).owned_since = itemOld.owned_since)
       ∧ (ItemUpdate.monitory_value { description := some "x" } = none →
           (applyItemUpdate itemOld { description := some "x" }).monitory_value = itemOld.monitory_value)
       ∧ (ItemUpdate.alt_text { description := some "x" } = none →
           (applyItemUpdate itemOld { description := some "x" }).alt_text = itemOld.alt_text)
       ∧ (ItemUpdate.collection_id { description := some "x" } = none →
           (applyItemUpdate itemOld { description := some "x" }).collection_id = itemOld.collection_id)
       ∧ (applyItemUpdate itemOld { description := some "x" }).filename = itemOld.filename
       ∧ (applyItemUpdate itemOld { description := some "x" }).file_path = itemOld.file_path
       ∧ (applyItemUpdate itemOld { description := some "x" }).file_size = itemOld.file_size
       ∧ (applyItemUpdate itemOld { description := some "x" }).mime_type = itemOld.mime_type
       ∧ (applyItemUpdate itemOld { description := some "x" }).width = itemOld.width
       ∧ (applyItemUpdate itemOld { description := some "x" }).height = itemOld.height
       ∧ (applyItemUpdate itemOld { description := some "x" }).owner_id = itemOld.owner_id
       ∧ (applyItemUpdate itemOld { description := some "x" }).upload_date = itemOld.upload_date) :=
  ⟨⟨by decide, by decide⟩,
   C7_sparse_patch_frames_absent_fields sysFix userPlain 1 itemOld "New Title"
     { description := some "x" } (by decide) (by decide)⟩

/-- C10: the metadata-only PATCH route performs no filesystem action at all
— storage is unchanged and its trace carries at most the database commit —
and the sparse merge structurally cannot change `filename`, `file_path`,
`file_size`, `mime_type`, `width` or `height`, so after a collection move
the stored file stays at its old path under the previous collection's
directory. -/
theorem C10_metadata_patch_never_touches_storage (s : Sys) (u : User) (id : Nat)
    (item_in : ItemUpdate) (item : Item) :
    (update_item_metadata s u id item_in).sys.fs = s.fs
    ∧ ((update_item_metadata s u id item_in).trace = []
        ∨ (update_item_metadata s u id item_in).trace = [Ev.dbCommit])
    ∧ (applyItemUpdate item item_in).file_path = item.file_path
    ∧ (applyItemUpdate item item_in).filename = item.filename
    ∧ (applyItemUpdate item item_in).file_size = item.file_size
    ∧ (applyItemUpdate item item_in).mime_type = item.mime_type
    ∧ (applyItemUpdate item item_in).width = item.width
    ∧ (applyItemUpdate item item_in).height = item.height := by
  have key : (update_item_metadata s u id item_in).sys.fs = s.fs
      ∧ ((update_item_metadata s u id item_in).trace = []
          ∨ (update_item_metadata s u id item_in).trace = [Ev.dbCommit]) := by
    unfold update_item_metadata
    cases hget : getItem s.db id with
    | none => exact ⟨rfl, Or.inl rfl⟩
    | some it' =>
      by_cases hperm : (!u.is_superuser && it'.owner_id != u.id) = true
      · simp [hperm]
      · simp only [Bool.not_eq_true] at hperm
        cases hmc : moveCheck s u item_in.collection_id with
        | none => simp [hperm, hmc]
        | some e => simp [hperm, hmc]
  exact ⟨key.1, key.2, rfl, rfl, rfl, rfl, rfl, rfl⟩

end Gallery
